import Mathlib

namespace CliniCoach

/-
Shallow embedding of src/app.py (the CliniCoach Streamlit app).

JSON values are modelled by an inductive type; the textual form a Python
f-string gives a dict/list (its repr) is modelled by pyRepr.  Each remote
HTTP call site is modelled by an environment that supplies either a
successfully parsed JSON body (a 2xx response whose body parses) or an
exception message (network errors, non-2xx responses surfaced by
raise_for_status, and JSON parse failures).  st.stop and uncaught
exceptions both halt the script and are modelled by Except.error.
Messages of Python exceptions raised by subscripting in exotic branches
are version-dependent; they are modelled by fixed stand-in strings, which
only ever appear after the error-marker text.
-/

inductive Json where
  | str (s : String)
  | arr (items : List Json)
  | obj (fields : List (String × Json))

def lookupFields : List (String × Json) → String → Option Json
  | [], _ => none
  | (k, v) :: rest, key => if k = key then some v else lookupFields rest key

/-- Python `d[key]` on a dict; `none` models the KeyError/TypeError case. -/
def Json.lookup : Json → String → Option Json
  | .obj fields, key => lookupFields fields key
  | _, _ => none

mutual

/-- Python repr of a JSON value, as produced by an f-string on a dict. -/
def pyRepr : Json → String
  | .str s => "\x27" ++ s ++ "\x27"
  | .arr items => "[" ++ pyReprItems items ++ "]"
  | .obj fields => "\x7b" ++ pyReprFields fields ++ "\x7d"

def pyReprItems : List Json → String
  | [] => ""
  | [x] => pyRepr x
  | x :: y :: rest => pyRepr x ++ ", " ++ pyReprItems (y :: rest)

def pyReprFields : List (String × Json) → String
  | [] => ""
  | [(k, v)] => "\x27" ++ k ++ "\x27: " ++ pyRepr v
  | (k, v) :: y :: rest => "\x27" ++ k ++ "\x27: " ++ pyRepr v ++ ", " ++ pyReprFields (y :: rest)

end

/-- Python `str(v)` / f-string interpolation of a JSON value. -/
def pyStr : Json → String
  | .str s => s
  | v => pyRepr v

def isPrefixList : List Char → List Char → Bool
  | [], _ => true
  | _ :: _, [] => false
  | a :: as, b :: bs => a = b && isPrefixList as bs

/-- Python `s.startswith(pre)`. -/
def pyStartswith (s pre : String) : Bool :=
  isPrefixList pre.data s.data

/-- Outcome of one `requests` call: a parsed JSON body, or an exception
(network error, raise_for_status on non-2xx, or a JSON parse failure). -/
inductive HttpResult where
  | exn (msg : String)
  | ok (body : Json)

/-- The error marker every failure string of get_gpt_response starts with. -/
def gptErrorTag : String := "⚠️ GPT error"

/-- src/app.py lines 48-73.  Returns the Python value the function returns:
`result["choices"][0]["message"]["content"]` on the success path (an
arbitrary JSON value), and an f-string starting with the error marker on
every failure path (the three except branches and the else branch). -/
def get_gpt_response (resp : HttpResult) : Json :=
  match resp with
  | .exn e => .str (gptErrorTag ++ ": " ++ e)
  | .ok result =>
    match result.lookup "choices" with
    | some (.arr (c :: _)) =>
      match c.lookup "message" with
      | some m =>
        match m.lookup "content" with
        | some v => v
        | none => .str (gptErrorTag ++ ": \x27content\x27")
      | none => .str (gptErrorTag ++ ": \x27message\x27")
    | some (.arr []) => .str (gptErrorTag ++ ": Unexpected response format " ++ pyRepr result)
    | some (.str s) =>
      if s.length > 0 then .str (gptErrorTag ++ ": string indices must be integers")
      else .str (gptErrorTag ++ ": Unexpected response format " ++ pyRepr result)
    | some (.obj fs) =>
      if fs.length > 0 then .str (gptErrorTag ++ ": 0")
      else .str (gptErrorTag ++ ": Unexpected response format " ++ pyRepr result)
    | none => .str (gptErrorTag ++ ": Unexpected response format " ++ pyRepr result)

/-- The content a genuine (non-error) completion would carry, if any:
`some v` exactly when get_gpt_response takes its success path. -/
def successContent (resp : HttpResult) : Option Json :=
  match resp with
  | .exn _ => none
  | .ok result =>
    match result.lookup "choices" with
    | some (.arr (c :: _)) =>
      match c.lookup "message" with
      | some m => m.lookup "content"
      | none => none
    | _ => none

/-- A remote request made during a run, as recorded in the call trace. -/
inductive Call where
  | upload
  | submit
  | poll (i : Nat)
  | gpt (prompt : String) (i : Nat)
deriving DecidableEq

/-- Python `v.startswith(pre)` on an arbitrary value: on a non-string it
raises AttributeError (modelled by Except.error), which would crash the
script at the startswith checks on lines 243 and 277. -/
def pyStartswithVal (v : Json) (pre : String) : Except String Bool :=
  match v with
  | .str s => .ok (pyStartswith s pre)
  | _ => .error "AttributeError"

/-- src/app.py lines 241-257 and 275-301: one generation stage (the two
blocks are line-for-line duplicates up to their prompt and messages).
`gpt p i` is the service response to the i-th call made with prompt p;
`retryPressed` models the st.button retry affordance.  Returns the final
stage value together with the gpt calls the stage made. -/
def promptStage (gpt : String → Nat → HttpResult) (prompt : String)
    (retryPressed : Bool) : Except String Json × List Call :=
  let first := get_gpt_response (gpt prompt 0)
  match pyStartswithVal first gptErrorTag with
  | .error e => (.error e, [Call.gpt prompt 0])
  | .ok failed =>
    if failed then
      if retryPressed then
        let second := get_gpt_response (gpt prompt 1)
        match pyStartswithVal second gptErrorTag with
        | .error e => (.error e, [Call.gpt prompt 0, Call.gpt prompt 1])
        | .ok _ => (.ok second, [Call.gpt prompt 0, Call.gpt prompt 1])
      else (.ok first, [Call.gpt prompt 0])
    else (.ok first, [Call.gpt prompt 0])

/-- Template text of the persona prompt before the interpolated transcript
(src/app.py lines 233-236; triple-quoted, so the 12-space indentation is
part of the text). -/
def personaPromptPre : String :=
  "\n            This is a transcript of a doctor-patient interaction:\n\n            \""

/-- Template text of the persona prompt after the interpolated transcript
(src/app.py lines 236-240). -/
def personaPromptPost : String :=
  "\"\n\n            Describe the patient\x27s persona in one sentence. Include emotional tone, approximate age, and any inferred medical condition.\n            Example: \x27Anxious 50-year-old woman with diabetes, frustrated by long wait times.\x27\n            "

/-- src/app.py lines 233-240: the persona prompt f-string. -/
def persona_prompt (transcript_text : Json) : String :=
  personaPromptPre ++ (pyStr transcript_text ++ personaPromptPost)

/-- Template text of the coaching prompt before the interpolated transcript
(src/app.py lines 262-266). -/
def coachingPromptPre : String :=
  "\n            You are a communication coach for doctors.\n\n            Here is a transcript of how the doctor actually interacted with the patient:\n            \""

/-- Template text of the coaching prompt between the transcript and the
persona summary (src/app.py lines 266-269). -/
def coachingPromptMid : String :=
  "\"\n\n            The patient persona is:\n            \""

/-- Template text of the coaching prompt after the persona summary
(src/app.py lines 269-274). -/
def coachingPromptPost : String :=
  "\"\n            \n            Analyze the doctor\x27s actual communication and provide 3 professional suggestions on how it could be improved.\n            Focus on missed emotional cues, clarity, and tone.\n            Format your response with clear headings and bullet points for easy reading.\n            "

/-- src/app.py lines 262-274: the coaching prompt f-string, embedding both
the transcript and the (possibly placeholder) persona summary. -/
def coaching_prompt (transcript_text persona_summary : Json) : String :=
  coachingPromptPre ++ (pyStr transcript_text ++
    (coachingPromptMid ++ (pyStr persona_summary ++ coachingPromptPost)))

/-- src/app.py lines 129-146: upload step.  Any exception (network, non-2xx
via raise_for_status, parse failure, missing upload_url key) reaches the
except branch, which reports the error and calls st.stop. -/
def upload_to_assemblyai (resp : HttpResult) : Except String Json :=
  match resp with
  | .exn e => .error ("Failed to upload file to AssemblyAI: " ++ e)
  | .ok body =>
    match body.lookup "upload_url" with
    | some url => .ok url
    | none => .error "Failed to upload file to AssemblyAI: \x27upload_url\x27"

/-- src/app.py lines 155-168: transcription submission.  Returns the job id
on success; a client exception or a body without an id halts the run. -/
def submitTranscription (resp : HttpResult) : Except String Json :=
  match resp with
  | .exn e => .error ("Transcription request failed: " ++ e)
  | .ok body =>
    match body.lookup "id" with
    | some v => .ok v
    | none => .error "❌ Failed to submit transcription request."

/-- src/app.py line 176. -/
def max_retries : Nat := 30

/-- Terminal outcome of the polling while-loop, carrying the number of poll
requests that were performed. -/
inductive PollResult where
  | completed (payload : Json) (polls : Nat)
  | failed (payload : Json) (polls : Nat)
  | timeout (polls : Nat)

/-- src/app.py lines 178-208: one unrolling of the polling while-loop.
`attempt` is the current retry_count, `fuel` is max_retries - retry_count.
A poll whose request raises, or whose body has no "status" key, or whose
status is not the string "completed" or "error", falls through to the next
iteration after retry_count += 1 and the sleep. -/
def pollAux (respond : Nat → HttpResult) (attempt : Nat) : Nat → PollResult
  | 0 => .timeout attempt
  | fuel + 1 =>
    match respond attempt with
    | .exn _ => pollAux respond (attempt + 1) fuel
    | .ok json =>
      match json.lookup "status" with
      | some (.str s) =>
        if s = "completed" then .completed json (attempt + 1)
        else if s = "error" then .failed json (attempt + 1)
        else pollAux respond (attempt + 1) fuel
      | some _ => pollAux respond (attempt + 1) fuel
      | none => pollAux respond (attempt + 1) fuel

/-- src/app.py lines 170-212: the polling loop, starting from
status = "queued", retry_count = 0, with a budget of max_retries polls. -/
def pollLoop (respond : Nat → HttpResult) : PollResult :=
  pollAux respond 0 max_retries

/-- src/app.py lines 170-214: the transcription controller: the polling
loop, the timed-out check on line 210, and transcript_text = result["text"]
on line 214 (an uncaught KeyError if the completed payload has no text).
Returns the transcript value together with the number of polls made. -/
def transcription_poll (respond : Nat → HttpResult) : Except String (Json × Nat) :=
  match pollLoop respond with
  | .completed payload n =>
    match payload.lookup "text" with
    | some v => .ok (v, n)
    | none => .error "KeyError: \x27text\x27"
  | .failed _ _ => .error "Transcription failed."
  | .timeout _ => .error "Transcription timed out. Please try again later."

def pollsOf : PollResult → Nat
  | .completed _ n => n
  | .failed _ n => n
  | .timeout n => n

def pollCalls (n : Nat) : List Call :=
  (List.range n).map Call.poll

/-- The remote services' behaviour for one run: the parsed outcome of each
call site, plus whether each retry button is pressed. -/
structure Env where
  uploadResp : HttpResult
  submitResp : HttpResult
  pollResp : Nat → HttpResult
  gpt : String → Nat → HttpResult
  retryPersona : Bool
  retryFeedback : Bool

structure RunOutput where
  transcript : Json
  persona : Json
  feedback : Json

/-- src/app.py lines 126-301: the Start Analysis pipeline: upload →
transcription submission → polling → persona stage → coaching stage.
Returns the run outcome (Except.error models st.stop or an uncaught
exception halting the script) and the trace of remote calls made. -/
def run (env : Env) : Except String RunOutput × List Call :=
  match upload_to_assemblyai env.uploadResp with
  | .error e => (.error e, [Call.upload])
  | .ok _audio_url =>
    match submitTranscription env.submitResp with
    | .error e => (.error e, [Call.upload, Call.submit])
    | .ok _transcript_id =>
      let pr := pollLoop env.pollResp
      let trace2 := [Call.upload, Call.submit] ++ pollCalls (pollsOf pr)
      match pr with
      | .failed _ _ => (.error "Transcription failed.", trace2)
      | .timeout _ => (.error "Transcription timed out. Please try again later.", trace2)
      | .completed payload _ =>
        match payload.lookup "text" with
        | none => (.error "KeyError: \x27text\x27", trace2)
        | some transcript_text =>
          let pprompt := persona_prompt transcript_text
          let pcalls := (promptStage env.gpt pprompt env.retryPersona).2
          match (promptStage env.gpt pprompt env.retryPersona).1 with
          | .error e => (.error e, trace2 ++ pcalls)
          | .ok persona_summary =>
            let cprompt := coaching_prompt transcript_text persona_summary
            let fcalls := (promptStage env.gpt cprompt env.retryFeedback).2
            match (promptStage env.gpt cprompt env.retryFeedback).1 with
            | .error e => (.error e, trace2 ++ pcalls ++ fcalls)
            | .ok coaching_feedback =>
              (.ok ⟨transcript_text, persona_summary, coaching_feedback⟩,
               trace2 ++ pcalls ++ fcalls)

/- ---------- The outbound call sites and their timeouts (claim C3) ---------- -/

def upload_endpoint : String := "https://api.assemblyai.com/v2/upload"

def transcript_endpoint : String := "https://api.assemblyai.com/v2/transcript"

structure RemoteCall where
  method : String
  endpoint : String
  timeoutSeconds : Option Nat
deriving DecidableEq

/-- src/app.py lines 133-138: requests.post(upload_endpoint, ..., timeout=60). -/
def uploadCall : RemoteCall :=
  ⟨"POST", upload_endpoint, some 60⟩

/-- src/app.py line 156: requests.post(transcript_endpoint, ...) — no timeout argument. -/
def submissionCall : RemoteCall :=
  ⟨"POST", transcript_endpoint, none⟩

/-- src/app.py line 180: requests.get(f"...{transcript_id}", ...) — no timeout argument. -/
def pollCallFor (transcript_id : String) : RemoteCall :=
  ⟨"GET", transcript_endpoint ++ "/" ++ transcript_id, none⟩

/-- src/app.py lines 55-60: requests.post("https://openrouter.ai/...", ..., timeout=30). -/
def completionCall : RemoteCall :=
  ⟨"POST", "https://openrouter.ai/api/v1/chat/completions", some 30⟩

/-- All outbound call sites of src/app.py, for a given transcription job id. -/
def remoteCalls (transcript_id : String) : List RemoteCall :=
  [uploadCall, submissionCall, pollCallFor transcript_id, completionCall]

/- ---------- Session Record Emitter (claim C2) ---------- -/

/-- Modelled from the spec: src/app.py contains no persistence code; the
Session Record Emitter of spec §4.4 (and its document store) is code of
the repository's other variants, absent from src/.  The record schema is
spec §3 SessionRecord: \x7btimestamp, filename, transcript, persona, feedback\x7d. -/
structure SessionRecord where
  timestamp : String
  filename : String
  transcript : String
  persona : String
  feedback : String
deriving DecidableEq

/-- Modelled from the spec: §4.4 "assemble ... and submit it to an external
persistence collaborator (a document-oriented store, keyed by a generated
record id, collection name fixed)", §5 "each run only appends one record":
an append-only write of one (generated id, record) document. -/
def emitSessionRecord (store : List (String × SessionRecord)) (recordId : String)
    (bundle : SessionRecord) : List (String × SessionRecord) :=
  store ++ [(recordId, bundle)]

/-- Modelled from the spec: §4.4, assembling the artifact bundle. -/
def assembleSessionRecord (timestamp filename transcript persona feedback : String) :
    SessionRecord :=
  ⟨timestamp, filename, transcript, persona, feedback⟩

/- ---------- Auxiliary predicates and concrete fixtures ---------- -/

/-- A poll outcome the while-loop treats as non-terminal: a raised client
exception, a body with no (string) status, or a status string other than
"completed" and "error". -/
def nonTerminalResp (resp : HttpResult) : Prop :=
  (∃ m, resp = .exn m) ∨
  (∃ body, resp = .ok body ∧
    (body.lookup "status" = none ∨
     (∃ v, body.lookup "status" = some v ∧ ∀ s, v ≠ .str s) ∨
     (∃ s, body.lookup "status" = some (.str s) ∧ s ≠ "completed" ∧ s ≠ "error")))

/-- Python `sub in s` on strings: sub occurs contiguously in s. -/
def strContains (s sub : String) : Prop :=
  ∃ a b, s = a ++ (sub ++ b)

/-- A poll body that stays queued. -/
def queuedBody : Json :=
  .obj [("status", .str "queued")]

/-- A poll body with the unrecognized status "resumed". -/
def resumedBody : Json :=
  .obj [("status", .str "resumed")]

/-- A completed poll payload carrying a transcript. -/
def completedBody : Json :=
  .obj [("status", .str "completed"), ("text", .str "Doctor: hello. Patient: hi.")]

/-- A completion-service body with no choices but a nested error message. -/
def rateLimitedBody : Json :=
  .obj [("error", .obj [("message", .str "rate limited")])]

/-- The placeholder get_gpt_response records for rateLimitedBody. -/
def rateLimitedPlaceholder : String :=
  gptErrorTag ++ ": Unexpected response format " ++ pyRepr rateLimitedBody

/-- Genuine completion content that happens to begin with the error marker. -/
def trollText : String :=
  "⚠️ GPT error: but this is genuine model output"

/-- A well-formed completion response whose content is trollText. -/
def trollBody : Json :=
  .obj [("choices", .arr [.obj [("message", .obj [("content", .str trollText)])]])]

/-- An environment whose upload call fails with HTTP 401. -/
def env401 : Env :=
  ⟨.exn "401 Client Error: Unauthorized for url: https://api.assemblyai.com/v2/upload",
   .exn "unused", fun _ => .exn "unused", fun _ _ => .exn "unused", false, false⟩

/-- An environment where upload, submission and the first poll succeed, the
persona completion call fails at the client level, and the retry buttons
are not pressed. -/
def envC9 : Env :=
  ⟨.ok (.obj [("upload_url", .str "https://cdn.assemblyai.com/upload/xyz")]),
   .ok (.obj [("id", .str "abc123"), ("status", .str "queued")]),
   fun _ => .ok completedBody,
   fun p _ => if p = persona_prompt (.str "Doctor: hello. Patient: hi.") then .exn "rate limit" else .ok trollBody,
   false, false⟩

/- ---------- Helper lemmas ---------- -/

lemma isPrefixList_self_append (p r : List Char) : isPrefixList p (p ++ r) = true := by
  induction p with
  | nil => rfl
  | cons a as ih => simp [isPrefixList, ih]

lemma data_append (a b : String) : (a ++ b).data = a.data ++ b.data := by
  cases a; cases b; rfl

lemma pyStartswith_self_append (p r : String) : pyStartswith (p ++ r) p = true := by
  unfold pyStartswith
  rw [data_append]
  exact isPrefixList_self_append _ _

lemma gptTag_prefix (r : String) : pyStartswith (gptErrorTag ++ r) gptErrorTag = true :=
  pyStartswith_self_append _ _

lemma gptTag_prefix_assoc (a b : String) :
    pyStartswith (gptErrorTag ++ a ++ b) gptErrorTag = true := by
  rw [String.append_assoc]
  exact gptTag_prefix _

lemma strContains_of_split (a m b : String) : strContains (a ++ m ++ b) m :=
  ⟨a, b, by rw [String.append_assoc]⟩

lemma pollAux_step (r : Nat → HttpResult) (a f : Nat) :
    pollAux r a (f + 1) =
      match r a with
      | .exn _ => pollAux r (a + 1) f
      | .ok json =>
        match json.lookup "status" with
        | some (.str s) =>
          if s = "completed" then .completed json (a + 1)
          else if s = "error" then .failed json (a + 1)
          else pollAux r (a + 1) f
        | some _ => pollAux r (a + 1) f
        | none => pollAux r (a + 1) f := rfl

/-- The loop's outcome depends only on the responses to the polls inside the
remaining budget: responses with index ≥ a + f are never requested. -/
lemma pollAux_congr (r r2 : Nat → HttpResult) (f : Nat) :
    ∀ a, (∀ i, a ≤ i → i < a + f → r2 i = r i) → pollAux r2 a f = pollAux r a f := by
  induction f with
  | zero => intro a _; rfl
  | succ f ih =>
    intro a h
    rw [pollAux_step, pollAux_step, h a (Nat.le_refl a) (by omega)]
    have tail : pollAux r2 (a + 1) f = pollAux r (a + 1) f :=
      ih (a + 1) (fun i h1 h2 => h i (by omega) (by omega))
    cases hra : r a with
    | exn m => exact tail
    | ok json =>
      dsimp only
      cases hs : json.lookup "status" with
      | none => exact tail
      | some v =>
        cases v with
        | str s =>
          dsimp only
          by_cases hc : s = "completed"
          · simp [hc]
          · by_cases he : s = "error"
            · simp [hc, he]
            · simp [hc, he, tail]
        | arr items => exact tail
        | obj fields => exact tail

/-- Running the loop across a stretch of non-terminal polls consumes exactly
one attempt per poll. -/
lemma pollAux_nonterminal_run (r : Nat → HttpResult) :
    ∀ j a f, j ≤ f → (∀ i, a ≤ i → i < a + j → nonTerminalResp (r i)) →
      pollAux r a f = pollAux r (a + j) (f - j) := by
  intro j
  induction j with
  | zero => intro a f _ _; rfl
  | succ j ih =>
    intro a f hle h
    obtain ⟨f', rfl⟩ : ∃ f', f = f' + 1 := ⟨f - 1, by omega⟩
    have step : pollAux r a (f' + 1) = pollAux r (a + 1) f' := by
      rcases h a (Nat.le_refl a) (by omega) with ⟨m, hm⟩ | ⟨body, hb, hcase⟩
      · simp only [pollAux_step, hm]
      · rcases hcase with hnone | ⟨v, hv, hvs⟩ | ⟨s, hs, hc, he⟩
        · simp only [pollAux_step, hb, hnone]
        · cases v with
          | str s => exact absurd rfl (hvs s)
          | arr items => simp only [pollAux_step, hb, hv]
          | obj fields => simp only [pollAux_step, hb, hv]
        · simp only [pollAux_step, hb, hs]
          simp [hc, he]
    have tail := ih (a + 1) f' (by omega) (fun i h1 h2 => h i (by omega) (by omega))
    have e1 : a + 1 + j = a + (j + 1) := by omega
    have e2 : f' - j = f' + 1 - (j + 1) := by omega
    rw [step, tail, e1, e2]

/-- get_gpt_response returns the extracted content on the success path. -/
lemma get_gpt_response_of_success (resp : HttpResult) (v : Json)
    (h : successContent resp = some v) : get_gpt_response resp = v := by
  cases resp with
  | exn e => simp [successContent] at h
  | ok result =>
    unfold successContent at h
    unfold get_gpt_response
    dsimp only at h ⊢
    cases hc : result.lookup "choices" with
    | none => rw [hc] at h; simp at h
    | some w =>
      rw [hc] at h
      cases w with
      | str s => simp at h
      | obj fields => simp at h
      | arr items =>
        cases items with
        | nil => simp at h
        | cons c rest =>
          dsimp only at h ⊢
          cases hm : c.lookup "message" with
          | none => rw [hm] at h; simp at h
          | some m =>
            rw [hm] at h
            dsimp only at h
            dsimp only
            cases hcon : m.lookup "content" with
            | none => rw [hcon] at h; simp at h
            | some u =>
              rw [hcon] at h
              injection h with h2

/-- Every failure path of get_gpt_response yields a string starting with the
error marker. -/
lemma get_gpt_response_of_failure (resp : HttpResult)
    (h : successContent resp = none) :
    ∃ s, get_gpt_response resp = .str s ∧ pyStartswith s gptErrorTag = true := by
  cases resp with
  | exn e =>
    exact ⟨_, rfl, gptTag_prefix_assoc ": " e⟩
  | ok result =>
    unfold successContent at h
    unfold get_gpt_response
    dsimp only at h ⊢
    cases hc : result.lookup "choices" with
    | none =>
      exact ⟨gptErrorTag ++ ": Unexpected response format " ++ pyRepr result, rfl,
        gptTag_prefix_assoc _ _⟩
    | some w =>
      rw [hc] at h
      cases w with
      | str s =>
        by_cases hl : s.length > 0
        · refine ⟨gptErrorTag ++ ": string indices must be integers", ?_, gptTag_prefix _⟩
          dsimp only
          rw [if_pos hl]
        · refine ⟨gptErrorTag ++ ": Unexpected response format " ++ pyRepr result, ?_,
            gptTag_prefix_assoc _ _⟩
          dsimp only
          rw [if_neg hl]
      | obj fields =>
        by_cases hl : fields.length > 0
        · refine ⟨gptErrorTag ++ ": 0", ?_, gptTag_prefix _⟩
          dsimp only
          rw [if_pos hl]
        · refine ⟨gptErrorTag ++ ": Unexpected response format " ++ pyRepr result, ?_,
            gptTag_prefix_assoc _ _⟩
          dsimp only
          rw [if_neg hl]
      | arr items =>
        cases items with
        | nil =>
          exact ⟨gptErrorTag ++ ": Unexpected response format " ++ pyRepr result, rfl,
            gptTag_prefix_assoc _ _⟩
        | cons c rest =>
          dsimp only at h ⊢
          cases hm : c.lookup "message" with
          | none => exact ⟨gptErrorTag ++ ": \x27message\x27", rfl, gptTag_prefix _⟩
          | some m =>
            rw [hm] at h
            dsimp only at h
            dsimp only
            cases hcon : m.lookup "content" with
            | none => exact ⟨gptErrorTag ++ ": \x27content\x27", rfl, gptTag_prefix _⟩
            | some u => rw [hcon] at h; simp at h

/-- The first entry of a generation stage's call trace is always the first
invocation of its prompt. -/
lemma promptStage_calls_head (gpt : String → Nat → HttpResult) (prompt : String)
    (retryPressed : Bool) :
    ∃ rest, (promptStage gpt prompt retryPressed).2 = Call.gpt prompt 0 :: rest := by
  unfold promptStage
  dsimp only
  cases h : pyStartswithVal (get_gpt_response (gpt prompt 0)) gptErrorTag with
  | error e => exact ⟨[], rfl⟩
  | ok failed =>
    cases failed with
    | false => exact ⟨[], rfl⟩
    | true =>
      cases retryPressed with
      | false => exact ⟨[], rfl⟩
      | true =>
        cases pyStartswithVal (get_gpt_response (gpt prompt 1)) gptErrorTag with
        | error e => exact ⟨[Call.gpt prompt 1], rfl⟩
        | ok b => exact ⟨[Call.gpt prompt 1], rfl⟩

lemma str_append_assoc (a b c : String) : a ++ b ++ c = a ++ (b ++ c) := by
  cases a with
  | mk la =>
    cases b with
    | mk lb =>
      cases c with
      | mk lc =>
        show String.mk (la ++ lb ++ lc) = String.mk (la ++ (lb ++ lc))
        rw [List.append_assoc]

lemma coaching_prompt_embeds_transcript (t p : Json) :
    strContains (coaching_prompt t p) (pyStr t) :=
  ⟨coachingPromptPre, coachingPromptMid ++ (pyStr p ++ coachingPromptPost), rfl⟩

lemma coaching_prompt_embeds_persona (t p : Json) :
    strContains (coaching_prompt t p) (pyStr p) :=
  ⟨coachingPromptPre ++ (pyStr t ++ coachingPromptMid), coachingPromptPost, by
    simp only [coaching_prompt, str_append_assoc]⟩

/-- A stage whose first call is classified as failed makes exactly two gpt
calls (both with the same prompt) when the retry affordance is used. -/
lemma promptStage_retry_calls (gpt : String → Nat → HttpResult) (prompt : String)
    (h : pyStartswithVal (get_gpt_response (gpt prompt 0)) gptErrorTag = .ok true) :
    (promptStage gpt prompt true).2 = [Call.gpt prompt 0, Call.gpt prompt 1] := by
  unfold promptStage
  dsimp only
  rw [h]
  dsimp only
  cases pyStartswithVal (get_gpt_response (gpt prompt 1)) gptErrorTag with
  | error e => rfl
  | ok b => rfl

/- ---------- Claim theorems ---------- -/

/-- C1: for a job that never leaves "queued", the polling loop performs
exactly 30 poll requests, its outcome never depends on any response past
the 30th (so no 31st request is made), and the run halts with the timeout
error. -/
theorem C1_polling_budget (respond : Nat → HttpResult)
    (h : ∀ i, i < max_retries →
      ∃ body, respond i = .ok body ∧ body.lookup "status" = some (.str "queued")) :
    pollLoop respond = .timeout 30 ∧
    transcription_poll respond = .error "Transcription timed out. Please try again later." ∧
    ∀ respond2 : Nat → HttpResult, (∀ i, i < max_retries → respond2 i = respond i) →
      pollLoop respond2 = .timeout 30 := by
  have key : ∀ r2 : Nat → HttpResult,
      (∀ i, i < max_retries →
        ∃ body, r2 i = .ok body ∧ body.lookup "status" = some (.str "queued")) →
      pollLoop r2 = .timeout 30 := by
    intro r2 h2
    have hnt : ∀ i, 0 ≤ i → i < 0 + max_retries → nonTerminalResp (r2 i) := by
      intro i _ hi2
      obtain ⟨body, hb, hst⟩ := h2 i (by omega)
      exact Or.inr ⟨body, hb, Or.inr (Or.inr ⟨"queued", hst, by decide, by decide⟩)⟩
    have h1 : pollLoop r2 = pollAux r2 (0 + max_retries) (max_retries - max_retries) :=
      pollAux_nonterminal_run r2 max_retries 0 max_retries (Nat.le_refl _) hnt
    rw [h1]
    rfl
  refine ⟨key respond h, ?_, ?_⟩
  · unfold transcription_poll
    rw [key respond h]
  · intro r2 hagree
    refine key r2 (fun i hi => ?_)
    rw [hagree i hi]
    exact h i hi

/-- C1 witness: a service that always answers "queued" is polled exactly 30
times and the loop times out. -/
theorem C1_polling_budget_witness :
    pollLoop (fun _ => .ok queuedBody) = .timeout 30 :=
  (C1_polling_budget (fun _ => .ok queuedBody) (fun _ _ => ⟨queuedBody, rfl, rfl⟩)).1

/-- C4: if the first poll answers with status "completed", the controller
performs exactly one poll (its outcome depends only on the first response),
stops, and returns exactly the payload's text field. -/
theorem C4_first_poll_completed (respond : Nat → HttpResult) (payload : Json) (t : String)
    (h0 : respond 0 = .ok payload)
    (hs : payload.lookup "status" = some (.str "completed"))
    (ht : payload.lookup "text" = some (.str t)) :
    pollLoop respond = .completed payload 1 ∧
    transcription_poll respond = .ok (.str t, 1) ∧
    ∀ respond2 : Nat → HttpResult, respond2 0 = respond 0 →
      pollLoop respond2 = .completed payload 1 := by
  have key : ∀ r2 : Nat → HttpResult, r2 0 = .ok payload →
      pollLoop r2 = .completed payload 1 := by
    intro r2 h2
    have h29 : pollLoop r2 = pollAux r2 0 (29 + 1) := rfl
    rw [h29, pollAux_step, h2]
    dsimp only
    rw [hs]
    rfl
  refine ⟨key respond h0, ?_, fun r2 h2 => key r2 (h2.trans h0)⟩
  unfold transcription_poll
  rw [key respond h0]
  dsimp only
  rw [ht]

/-- C4 witness: a concrete first-poll-completed service. -/
theorem C4_first_poll_completed_witness :
    pollLoop (fun _ => .ok completedBody) = .completed completedBody 1 ∧
    transcription_poll (fun _ => .ok completedBody) =
      .ok (.str "Doctor: hello. Patient: hi.", 1) :=
  ⟨(C4_first_poll_completed (fun _ => .ok completedBody) completedBody
      "Doctor: hello. Patient: hi." rfl rfl rfl).1,
   (C4_first_poll_completed (fun _ => .ok completedBody) completedBody
      "Doctor: hello. Patient: hi." rfl rfl rfl).2.1⟩

/-- C5: poll responses whose status string lies outside
{completed, error} — including unrecognized values such as "resumed" — do
not raise and do not terminate the loop: after any stretch of k such polls
the loop is still running, and a completed poll at attempt k ends it
normally with k + 1 polls performed. -/
theorem C5_unknown_status_continues (respond : Nat → HttpResult) (k : Nat) (payload : Json)
    (hk : k < max_retries)
    (hpre : ∀ i, i < k → ∃ body s, respond i = .ok body ∧
      body.lookup "status" = some (.str s) ∧ s ≠ "completed" ∧ s ≠ "error")
    (hk2 : respond k = .ok payload)
    (hs : payload.lookup "status" = some (.str "completed")) :
    pollLoop respond = .completed payload (k + 1) := by
  have hnt : ∀ i, 0 ≤ i → i < 0 + k → nonTerminalResp (respond i) := by
    intro i _ hi2
    obtain ⟨body, s, hb, hst, hc, he⟩ := hpre i (by omega)
    exact Or.inr ⟨body, hb, Or.inr (Or.inr ⟨s, hst, hc, he⟩)⟩
  have h1 : pollLoop respond = pollAux respond (0 + k) (max_retries - k) :=
    pollAux_nonterminal_run respond k 0 max_retries (Nat.le_of_lt hk) hnt
  obtain ⟨f', hf⟩ : ∃ f', max_retries - k = f' + 1 :=
    ⟨max_retries - k - 1, by omega⟩
  rw [h1, Nat.zero_add, hf, pollAux_step, hk2]
  dsimp only
  rw [hs]
  rfl

/-- C5 witness: a first poll with the unrecognized status "resumed" is
tolerated and the loop completes on the second poll. -/
theorem C5_unknown_status_continues_witness :
    pollLoop (fun i => match i with
      | 0 => .ok resumedBody
      | _ + 1 => .ok completedBody) = .completed completedBody 2 :=
  C5_unknown_status_continues
    (fun i => match i with
      | 0 => .ok resumedBody
      | _ + 1 => .ok completedBody)
    1 completedBody (by decide)
    (fun i hi => by
      obtain rfl : i = 0 := by omega
      exact ⟨resumedBody, "resumed", rfl, rfl, by decide, by decide⟩)
    rfl rfl

/-- C6: a client-level error during a poll is not fatal: after any stretch
of k polls that raise, the loop is still running and has consumed exactly
one attempt per error, and a completed poll at attempt k ends it normally
with k + 1 polls performed. -/
theorem C6_poll_error_not_fatal (respond : Nat → HttpResult) (k : Nat) (payload : Json)
    (hk : k < max_retries)
    (hpre : ∀ i, i < k → ∃ m, respond i = .exn m)
    (hk2 : respond k = .ok payload)
    (hs : payload.lookup "status" = some (.str "completed")) :
    pollLoop respond = .completed payload (k + 1) := by
  have hnt : ∀ i, 0 ≤ i → i < 0 + k → nonTerminalResp (respond i) := by
    intro i _ hi2
    obtain ⟨m, hm⟩ := hpre i (by omega)
    exact Or.inl ⟨m, hm⟩
  have h1 : pollLoop respond = pollAux respond (0 + k) (max_retries - k) :=
    pollAux_nonterminal_run respond k 0 max_retries (Nat.le_of_lt hk) hnt
  obtain ⟨f', hf⟩ : ∃ f', max_retries - k = f' + 1 :=
    ⟨max_retries - k - 1, by omega⟩
  rw [h1, Nat.zero_add, hf, pollAux_step, hk2]
  dsimp only
  rw [hs]
  rfl

/-- C6 witness: a network blip on the first poll consumes one attempt and
polling continues to completion on the second poll. -/
theorem C6_poll_error_not_fatal_witness :
    pollLoop (fun i => match i with
      | 0 => .exn "ConnectionError"
      | _ + 1 => .ok completedBody) = .completed completedBody 2 :=
  C6_poll_error_not_fatal
    (fun i => match i with
      | 0 => .exn "ConnectionError"
      | _ + 1 => .ok completedBody)
    1 completedBody (by decide)
    (fun i hi => by
      obtain rfl : i = 0 := by omega
      exact ⟨"ConnectionError", rfl⟩)
    rfl rfl

/-- C7: if the upload call fails (for instance HTTP 401), the run halts at
once with the upload error: the call trace holds only the upload call — no
transcription submission is made and neither generation stage is invoked. -/
theorem C7_upload_failure_halts (env : Env) (msg : String)
    (h : env.uploadResp = .exn msg) :
    (run env).1 = .error ("Failed to upload file to AssemblyAI: " ++ msg) ∧
    (run env).2 = [Call.upload] := by
  unfold run upload_to_assemblyai
  rw [h]
  exact ⟨rfl, rfl⟩

/-- C7 witness: a 401 on upload leaves exactly one call in the trace. -/
theorem C7_upload_failure_halts_witness :
    (run env401).1 = .error ("Failed to upload file to AssemblyAI: " ++
      "401 Client Error: Unauthorized for url: https://api.assemblyai.com/v2/upload") ∧
    (run env401).2 = [Call.upload] :=
  C7_upload_failure_halts env401
    "401 Client Error: Unauthorized for url: https://api.assemblyai.com/v2/upload" rfl

/-- C8: on a completion body with no choices but error.message =
"rate limited", the stage does not halt: it records a placeholder string
that contains that message and starts with the error marker; pressing the
retry affordance re-invokes the service with the very same prompt (and only
once more), after which the stage proceeds with the error placeholder. -/
theorem C8_rate_limited_placeholder (gpt : String → Nat → HttpResult) (prompt : String)
    (h0 : gpt prompt 0 = .ok rateLimitedBody)
    (h1 : gpt prompt 1 = .ok rateLimitedBody) :
    (promptStage gpt prompt false).1 = .ok (.str rateLimitedPlaceholder) ∧
    strContains rateLimitedPlaceholder "rate limited" ∧
    pyStartswith rateLimitedPlaceholder gptErrorTag = true ∧
    (promptStage gpt prompt true).2 = [Call.gpt prompt 0, Call.gpt prompt 1] ∧
    (promptStage gpt prompt true).1 = .ok (.str rateLimitedPlaceholder) := by
  have e0 : promptStage gpt prompt false =
      (.ok (.str rateLimitedPlaceholder), [Call.gpt prompt 0]) := by
    unfold promptStage
    dsimp only
    rw [h0]
    rfl
  have e1 : promptStage gpt prompt true =
      (.ok (.str rateLimitedPlaceholder), [Call.gpt prompt 0, Call.gpt prompt 1]) := by
    unfold promptStage
    dsimp only
    rw [h0, h1]
    rfl
  refine ⟨by rw [e0], ?_, by decide, by rw [e1], by rw [e1]⟩
  exact ⟨"⚠️ GPT error: Unexpected response format \x7b\x27error\x27: \x7b\x27message\x27: \x27",
    "\x27\x7d\x7d", by decide⟩

/-- C8 witness: a service answering the rate-limited body on every call. -/
theorem C8_rate_limited_placeholder_witness :
    (promptStage (fun _ _ => .ok rateLimitedBody) "p" false).1 =
      .ok (.str rateLimitedPlaceholder) ∧
    (promptStage (fun _ _ => .ok rateLimitedBody) "p" true).2 =
      [Call.gpt "p" 0, Call.gpt "p" 1] :=
  ⟨(C8_rate_limited_placeholder (fun _ _ => .ok rateLimitedBody) "p" rfl rfl).1,
   (C8_rate_limited_placeholder (fun _ _ => .ok rateLimitedBody) "p" rfl rfl).2.2.2.1⟩

/-- C2: the Session Record Emitter assembles the five-field bundle
unchanged and each invocation appends one new (id, record) document to the
store — re-running it with the same in-memory bundle appends again rather
than upserting. -/
theorem C2_session_record_append (store : List (String × SessionRecord))
    (i1 i2 ts fn tr pe fb : String) :
    (assembleSessionRecord ts fn tr pe fb).timestamp = ts ∧
    (assembleSessionRecord ts fn tr pe fb).filename = fn ∧
    (assembleSessionRecord ts fn tr pe fb).transcript = tr ∧
    (assembleSessionRecord ts fn tr pe fb).persona = pe ∧
    (assembleSessionRecord ts fn tr pe fb).feedback = fb ∧
    emitSessionRecord (emitSessionRecord store i1 (assembleSessionRecord ts fn tr pe fb))
        i2 (assembleSessionRecord ts fn tr pe fb) =
      store ++ [(i1, assembleSessionRecord ts fn tr pe fb),
                (i2, assembleSessionRecord ts fn tr pe fb)] := by
  refine ⟨rfl, rfl, rfl, rfl, rfl, ?_⟩
  simp [emitSessionRecord]

/-- C3 counterexample: it is not the case that every outbound remote call
site of src/app.py passes an explicit timeout — the transcription
submission call (line 156) and the poll call (line 180) pass none. -/
theorem C3_counterexample :
    ¬ ∀ c ∈ remoteCalls "abc123", c.timeoutSeconds ≠ none := by
  intro h
  exact h submissionCall (by simp [remoteCalls]) rfl

/-- C3 (amended): the upload call has an explicit 60-second timeout and the
completion call an explicit 30-second timeout, but the transcription
submission and poll calls are made without any timeout, so those two can
block indefinitely. -/
theorem C3_amended_timeouts :
    uploadCall.timeoutSeconds = some 60 ∧
    completionCall.timeoutSeconds = some 30 ∧
    submissionCall.timeoutSeconds = none ∧
    ∀ tid, (pollCallFor tid).timeoutSeconds = none :=
  ⟨rfl, rfl, rfl, fun _ => rfl⟩

/-- C9: a persona-stage failure does not prevent the coaching stage: under
a successful upload, submission and poll, once the persona stage resolves
to a placeholder string (one starting with the error marker), the run still
makes the coaching-feedback request, whose prompt is built from the
resolved persona and embeds both the transcript text and the persona
placeholder text. -/
theorem C9_persona_failure_feedback_runs (env : Env) (t_val : Json) (personaText : String)
    (hup : ∃ u, upload_to_assemblyai env.uploadResp = .ok u)
    (hsub : ∃ tid, submitTranscription env.submitResp = .ok tid)
    (hpoll : ∃ payload n, pollLoop env.pollResp = .completed payload n ∧
      payload.lookup "text" = some t_val)
    (hper : (promptStage env.gpt (persona_prompt t_val) env.retryPersona).1 =
      .ok (.str personaText))
    (_hfail : pyStartswith personaText gptErrorTag = true) :
    ∃ l1 l2,
      (run env).2 = l1 ++ (Call.gpt (coaching_prompt t_val (.str personaText)) 0 :: l2) ∧
      strContains (coaching_prompt t_val (.str personaText)) (pyStr t_val) ∧
      strContains (coaching_prompt t_val (.str personaText)) personaText := by
  obtain ⟨u, hu⟩ := hup
  obtain ⟨tid, hti⟩ := hsub
  obtain ⟨payload, n, hp, htext⟩ := hpoll
  obtain ⟨rest, hrest⟩ :=
    promptStage_calls_head env.gpt (coaching_prompt t_val (.str personaText)) env.retryFeedback
  refine ⟨[Call.upload, Call.submit] ++ pollCalls n ++
      (promptStage env.gpt (persona_prompt t_val) env.retryPersona).2, rest, ?_,
    coaching_prompt_embeds_transcript t_val (.str personaText),
    coaching_prompt_embeds_persona t_val (.str personaText)⟩
  unfold run
  rw [hu]
  dsimp only
  rw [hti]
  dsimp only
  rw [hp]
  dsimp only
  rw [htext]
  dsimp only
  rw [hper]
  dsimp only
  rw [hrest]
  cases hfb : (promptStage env.gpt (coaching_prompt t_val (.str personaText))
      env.retryFeedback).1 with
  | error e => rfl
  | ok fb => rfl

set_option maxRecDepth 100000 in
/-- C9 witness: concrete run where the persona call fails at the client
level yet the coaching request is still made with both texts embedded. -/
theorem C9_persona_failure_feedback_runs_witness :
    ∃ l1 l2,
      (run envC9).2 = l1 ++ (Call.gpt (coaching_prompt (.str "Doctor: hello. Patient: hi.")
        (.str "⚠️ GPT error: rate limit")) 0 :: l2) ∧
      strContains (coaching_prompt (.str "Doctor: hello. Patient: hi.")
        (.str "⚠️ GPT error: rate limit")) (pyStr (.str "Doctor: hello. Patient: hi.")) ∧
      strContains (coaching_prompt (.str "Doctor: hello. Patient: hi.")
        (.str "⚠️ GPT error: rate limit")) "⚠️ GPT error: rate limit" :=
  C9_persona_failure_feedback_runs envC9 (.str "Doctor: hello. Patient: hi.")
    "⚠️ GPT error: rate limit"
    ⟨.str "https://cdn.assemblyai.com/upload/xyz", rfl⟩
    ⟨.str "abc123", rfl⟩
    ⟨completedBody, 1, rfl, rfl⟩
    rfl
    (by decide)

/-- C10: every failing completion response (client exception — covering
HTTP error statuses and unparseable bodies — or a parsed body with missing,
empty or malformed choices, or missing nested fields) yields a string
starting with "⚠️ GPT error" and never a raised exception; the stages
classify a result as failed precisely by that prefix: a genuine completion
without the prefix is accepted with no retry, while a genuine completion
whose content happens to start with the prefix (trollBody) is
indistinguishable from a failure — the stage treats it as failed and
retries it. -/
theorem C10_error_prefix_classification :
    (∀ resp, successContent resp = none →
      ∃ s, get_gpt_response resp = .str s ∧ pyStartswith s gptErrorTag = true) ∧
    (∀ (gpt : String → Nat → HttpResult) (p s : String),
      successContent (gpt p 0) = some (.str s) →
      pyStartswith s gptErrorTag = false →
      (promptStage gpt p true).1 = .ok (.str s) ∧
      (promptStage gpt p true).2 = [Call.gpt p 0]) ∧
    (successContent (.ok trollBody) = some (.str trollText) ∧
      pyStartswith trollText gptErrorTag = true) ∧
    (∀ gpt : String → Nat → HttpResult, gpt "p" 0 = .ok trollBody →
      (promptStage gpt "p" false).1 = .ok (.str trollText) ∧
      (promptStage gpt "p" true).2 = [Call.gpt "p" 0, Call.gpt "p" 1]) := by
  refine ⟨get_gpt_response_of_failure, ?_, ⟨rfl, by decide⟩, ?_⟩
  · intro gpt p s hsucc hfalse
    have hresp := get_gpt_response_of_success (gpt p 0) (.str s) hsucc
    unfold promptStage
    dsimp only
    rw [hresp]
    dsimp only [pyStartswithVal]
    rw [hfalse]
    exact ⟨rfl, rfl⟩
  · intro gpt h
    constructor
    · unfold promptStage
      dsimp only
      rw [h]
      rfl
    · refine promptStage_retry_calls gpt "p" ?_
      rw [h]
      rfl

/-- C10 witness: a client exception produces a string carrying the
error-marker prefix. -/
theorem C10_error_prefix_classification_witness :
    ∃ s, get_gpt_response (.exn "boom") = .str s ∧
      pyStartswith s gptErrorTag = true :=
  C10_error_prefix_classification.1 (.exn "boom") rfl

end CliniCoach
